import Mathlib

/-!
Shallow embedding of the enrichment-and-scoring pipeline of the
`jannin2/stock-app` Go repository.

Numeric `float64` values are modelled as exact rationals (`ℚ`), the usual
idealisation of decimal arithmetic.  Go's `time.Time` is modelled as an
integer instant whose zero value is `0` (`IsZero` checks equality with the
zero instant); `time.Unix ts 0` maps to the instant `unixEpochOffset + ts`,
so it is the zero instant exactly when `ts` is the negated epoch offset,
as in Go.  External HTTP calls are modelled by oracles: a `FetchOutcome`
describes what one HTTP request-plus-decode produced, and an `Env` record
supplies one outcome per endpoint and ticker.  Errors carry their message
strings; for combined errors (the Finnhub client wraps the earlier error
text into the later one) we keep the accumulated list of messages, so
`error ≠ []` models Go's `err != nil`.
-/

namespace StockApp

/-- Go `time.Time` modelled as an integer instant; the zero value is `0`. -/
abbrev GoTime := Int

/-- Model of `time.Time.IsZero`: the instant is the zero value. -/
def GoTime.isZero (t : GoTime) : Bool := t == 0

/-- Seconds from the zero instant (year 1) to the Unix epoch. -/
def unixEpochOffset : Int := 62135596800

/-- Model of `time.Unix ts 0` as an instant. -/
def timeUnix (ts : Int) : GoTime := unixEpochOffset + ts

/-- Injective encoding of a calendar date `YYYY-MM-DD` as a nonzero
instant (the exact value is irrelevant to the pipeline: only validity and
equality of dates matter). -/
def dateInstant (y m d : Nat) : GoTime := ((y * 372 + m * 31 + d : Nat) : Int)

/-- Model of `models.NullFloat64`: wrapper around `sql.NullFloat64`
(`Float64 float64; Valid bool`). -/
structure NullFloat64 where
  float64 : ℚ
  valid : Bool
deriving Repr, DecidableEq

/-- Model of `models.NullTime`: wrapper around `sql.NullTime`
(`Time time.Time; Valid bool`). -/
structure NullTime where
  time : GoTime
  valid : Bool
deriving Repr, DecidableEq

/-- Model of `models.NewNullFloat64`. -/
def NewNullFloat64 (f : ℚ) : NullFloat64 := ⟨f, true⟩

/-- Model of `models.NewNullTime`. -/
def NewNullTime (t : GoTime) : NullTime := ⟨t, true⟩

/-- Model of `models.Stock`: one stock record (recommendation plus enriched fields). -/
structure Stock where
  id : String
  ticker : String
  company : String
  brokerage : String
  action : String
  ratingFrom : String
  ratingTo : String
  targetFrom : NullFloat64
  targetTo : NullFloat64
  currentPrice : ℚ
  peRatio : NullFloat64
  dividendYield : NullFloat64
  marketCapitalization : NullFloat64
  alpha : NullFloat64
  latestTradingDay : NullTime
  recommendationScore : NullFloat64
  createdAt : GoTime
  updatedAt : GoTime
deriving Repr, DecidableEq

/-! ### JSON (de)serialisation of `NullFloat64`

The wire data handed to `UnmarshalJSON` is modelled at the level of the
JSON value the raw bytes parse to: `null`, a numeric literal, or a quoted
string with content `s` (raw bytes `"s"`).  Go's checks on the trimmed raw
bytes translate as: raw `null` ↔ `JValue.null`; raw `""` ↔ `JValue.str ""`;
`strings.ToLower raw == "\"n/a\""` ↔ `s.toLower = "n/a"`; a numeric literal
↔ `JValue.num q` (which `json.Unmarshal` decodes into the float); any other
quoted string makes `json.Unmarshal` into `float64` fail. -/

/-- A decoded JSON value appearing where a nullable float is expected. -/
inductive JValue where
  | null : JValue
  | num : ℚ → JValue
  | str : String → JValue
deriving Repr, DecidableEq

/-- Model of `NullFloat64.MarshalJSON`: absent marshals to the JSON `null` literal,
present to the numeric literal. -/
def NullFloat64.marshalJSON (nf : NullFloat64) : JValue :=
  if !nf.valid then JValue.null else JValue.num nf.float64

/-- Model of `NullFloat64.UnmarshalJSON`: the receiver `nf` is the prior value of
the pointed-to struct (Go only assigns the fields it mentions). -/
def NullFloat64.unmarshalJSON (nf : NullFloat64) (data : JValue) :
    Except String NullFloat64 :=
  match data with
  | JValue.null => Except.ok { nf with valid := false }
  | JValue.str s =>
      if s = "" || s.toLower = "n/a" then Except.ok { nf with valid := false }
      else Except.error ("json: cannot unmarshal \x22" ++ s ++ "\x22 into Go value of type float64")
  | JValue.num f => Except.ok { float64 := f, valid := true }

/-! ### Recommendation score (`cron/enricher.go`, `CalculateRecommendationScore`) -/

/-- Model of `CalculateRecommendationScore`: +5.0 for an exact `"Buy"`/`"Strong Buy"`
action; +3.0 when the current price is positive and a valid new target
exceeds `currentPrice * 1.1`. -/
def CalculateRecommendationScore (stock : Stock) : ℚ :=
  let scoreVal : ℚ := 0
  let scoreVal :=
    if stock.action = "Buy" ∨ stock.action = "Strong Buy" then scoreVal + 5 else scoreVal
  let scoreVal :=
    if 0 < stock.currentPrice ∧ stock.targetTo.valid = true ∧
        stock.currentPrice * (11/10) < stock.targetTo.float64 then
      scoreVal + 3
    else scoreVal
  scoreVal

/-! ### External HTTP calls as oracles -/

/-- Outcome of one HTTP GET as the Go clients observe it: a `http.Get`
error, an `io.ReadAll` error, or a completed response carrying its
numeric status code, its status text (`resp.Status`), its raw body, and
what `json.Unmarshal` of that body yields (consulted by the clients only
when the status code is exactly 200). -/
inductive FetchOutcome (α : Type) where
  | httpErr : String → FetchOutcome α
  | readErr : String → FetchOutcome α
  | completed : Nat → String → String → Except String α → FetchOutcome α
deriving Repr

/-- Abbreviation for a decoded 200-status response. -/
def FetchOutcome.ok {α : Type} (a : α) : FetchOutcome α :=
  FetchOutcome.completed 200 "200 OK" "" (Except.ok a)

/-- Whether the request produced a decoded 200-status payload. -/
def FetchOutcome.isOk {α : Type} : FetchOutcome α → Bool
  | FetchOutcome.completed code _ _ (Except.ok _) => code == 200
  | _ => false

/-! ### Rating Source client (`api`, `GetRecommendationsFromKarenai`) -/

/-- Model of `karenaiResponse`: the provider's first-page payload. -/
structure KarenaiResponse where
  items : List Stock
  nextPage : String
deriving Repr

/-- Model of `GetRecommendationsFromKarenai`, parameterised by the environment's
`KARENAI_API_KEY` (Go's `os.Getenv` yields `""` when unset) and by the
outcome of the single authenticated request. -/
def GetRecommendationsFromKarenai (apiKey : String)
    (resp : FetchOutcome KarenaiResponse) : Except String (List Stock) :=
  if apiKey = "" then
    Except.error "KARENAI_API_KEY no configurada"
  else
    match resp with
    | FetchOutcome.httpErr m => Except.error ("error al realizar la solicitud HTTP a Karenai.click: " ++ m)
    | FetchOutcome.readErr m => Except.error ("error al leer la respuesta de Karenai.click: " ++ m)
    | FetchOutcome.completed code st body decoded =>
        if code ≠ 200 then
          Except.error ("Karenai.click API devolvió un estado de error: " ++ st ++ " - Cuerpo de respuesta: " ++ body)
        else
          match decoded with
          | Except.error m => Except.error ("error al decodificar la respuesta JSON de Karenai.click: " ++ m)
          | Except.ok r => Except.ok r.items

/-! ### Quote/Fundamentals Client A (`api`, `GetFinnhubMetricsAndQuote`) -/

/-- Model of `FinnhubMetricResponse.Metric`: named after the Go struct fields
(`DividendYield` decodes JSON `dividendYieldAnnually`, `DividendYieldAlt`
decodes JSON `dividendYield`). -/
structure FinnhubMetricResponse where
  peExclExtraTTM : ℚ
  peRatio : ℚ
  dividendYield : ℚ
  dividendYieldAlt : ℚ
  marketCap : ℚ
deriving Repr, DecidableEq

/-- Model of `FinnhubQuoteResponse`: current price `c` and unix timestamp `t`. -/
structure FinnhubQuoteResponse where
  currentPrice : ℚ
  timestamp : Int
deriving Repr, DecidableEq

/-- Model of `FinnhubData`: the consolidated result; `error` holds the accumulated
error messages (`[]` models Go's `nil` error, a later failure wraps the
earlier error text, modelled by consing). -/
structure FinnhubData where
  peRatio : ℚ := 0
  dividendYield : ℚ := 0
  marketCapitalization : ℚ := 0
  currentPrice : ℚ := 0
  latestTradingDay : GoTime := 0
  error : List String := []
deriving Repr, DecidableEq

/-- The metrics sub-fetch of `GetFinnhubMetricsAndQuote`: on success apply
the preferred/alternate fallback for P/E and dividend yield (a preferred
value of exactly zero selects the alternate field) and take the market
cap; on any failure record the error message. -/
def finnhubMetricsStep (fd : FinnhubData)
    (metrics : FetchOutcome FinnhubMetricResponse) : FinnhubData :=
  match metrics with
  | FetchOutcome.httpErr m => { fd with error := ["error al consultar métricas de Finnhub: " ++ m] }
  | FetchOutcome.readErr m => { fd with error := ["error al leer el cuerpo de la respuesta de Finnhub metrics: " ++ m] }
  | FetchOutcome.completed code st body decoded =>
      if code ≠ 200 then
        { fd with error := ["Finnhub métricas API devolvió estado de error: " ++ st ++ " - Cuerpo: " ++ body] }
      else
        match decoded with
        | Except.error m => { fd with error := ["error al decodificar JSON de métricas de Finnhub: " ++ m] }
        | Except.ok md =>
            { fd with
              peRatio := if md.peExclExtraTTM ≠ 0 then md.peExclExtraTTM else md.peRatio
              dividendYield := if md.dividendYield ≠ 0 then md.dividendYield else md.dividendYieldAlt
              marketCapitalization := md.marketCap }

/-- The quote sub-fetch of `GetFinnhubMetricsAndQuote`: on success take the
current price and, when the unix timestamp is nonzero, the trading day
`time.Unix t 0`; on failure cons the new message onto the combined error. -/
def finnhubQuoteStep (fd : FinnhubData)
    (quote : FetchOutcome FinnhubQuoteResponse) : FinnhubData :=
  match quote with
  | FetchOutcome.httpErr m => { fd with error := ("error al consultar cotización de Finnhub: " ++ m) :: fd.error }
  | FetchOutcome.readErr m => { fd with error := ("error al leer el cuerpo de la respuesta de Finnhub quote: " ++ m) :: fd.error }
  | FetchOutcome.completed code st body decoded =>
      if code ≠ 200 then
        { fd with error := ("Finnhub cotización API devolvió estado de error: " ++ st ++ " - Cuerpo: " ++ body) :: fd.error }
      else
        match decoded with
        | Except.error m => { fd with error := ("error al decodificar JSON de cotización de Finnhub: " ++ m) :: fd.error }
        | Except.ok qd =>
            { fd with
              currentPrice := qd.currentPrice
              latestTradingDay := if qd.timestamp ≠ 0 then timeUnix qd.timestamp else fd.latestTradingDay }

/-- Model of `GetFinnhubMetricsAndQuote`: missing `FINNHUB_API_KEY` fails fast;
otherwise the two sub-fetches run independently and their failures are
combined.  Go returns `(finnhubData, finnhubData.Error)`; the error
component is the `error` field of the returned data. -/
def GetFinnhubMetricsAndQuote (apiKey : String)
    (metrics : FetchOutcome FinnhubMetricResponse)
    (quote : FetchOutcome FinnhubQuoteResponse) : FinnhubData :=
  if apiKey = "" then
    { error := ["FINNHUB_API_KEY no está configurada"] }
  else
    finnhubQuoteStep (finnhubMetricsStep {} metrics) quote

/-! ### Fundamentals Client B (`api`, `GetAlphaAndLatestTradingDayFromAlphaVantage`) -/

/-- The `"Global Quote"` object of the Alpha Vantage payload:
`latestTradingDay` is the `"07. latest trading day"` entry when present
with a string value. -/
structure AVGlobalQuote where
  latestTradingDay : Option String
deriving Repr, DecidableEq

/-- The decoded Alpha Vantage payload: optional top-level
`"Error Message"` and `"Note"` string fields and the optional
`"Global Quote"` object. -/
structure AVPayload where
  errorMessage : Option String
  note : Option String
  globalQuote : Option AVGlobalQuote
deriving Repr, DecidableEq

/-- Model of `AlphaVantageData`: `error = none` models Go's `nil` error. -/
structure AlphaVantageData where
  alpha : ℚ := 0
  latestTradingDay : GoTime := 0
  error : Option String := none
deriving Repr, DecidableEq

/-- Model of `time.Parse "2006-01-02"` specialised to the `YYYY-MM-DD` strings the
provider sends: four digits, dash, two digits (month 1–12), dash, two
digits (day 1–31). -/
def parseDateYMD (s : String) : Option GoTime :=
  match s.splitOn "-" with
  | [ys, ms, ds] =>
      if ys.length = 4 ∧ ms.length = 2 ∧ ds.length = 2 then
        match ys.toNat?, ms.toNat?, ds.toNat? with
        | some y, some m, some d =>
            if 1 ≤ m ∧ m ≤ 12 ∧ 1 ≤ d ∧ d ≤ 31 then some (dateInstant y m d) else none
        | _, _, _ => none
      else none
  | _ => none

/-- Model of `GetAlphaAndLatestTradingDayFromAlphaVantage`: missing key fails fast;
transport/read/status/decode failures and the payload's own
`"Error Message"`/`"Note"` fields all return an error; with a
`"Global Quote"` object, a present nonempty trading-day string is parsed
(a parse failure sets the error).  The `Alpha` field is never assigned on
any path: it keeps the struct's zero value `0`.  Go returns
`(avData, avData.Error)`; the error component is the `error` field. -/
def GetAlphaAndLatestTradingDayFromAlphaVantage (apiKey : String)
    (resp : FetchOutcome AVPayload) : AlphaVantageData :=
  if apiKey = "" then
    { error := some "ALPHA_VANTAGE_API_KEY no está configurada" }
  else
    match resp with
    | FetchOutcome.httpErr m => { error := some ("error al consultar Alpha Vantage: " ++ m) }
    | FetchOutcome.readErr m => { error := some ("error al leer el cuerpo de la respuesta de Alpha Vantage: " ++ m) }
    | FetchOutcome.completed code st body decoded =>
      if code ≠ 200 then
        { error := some ("Alpha Vantage API devolvió estado de error: " ++ st ++ ". Cuerpo: " ++ body) }
      else
        match decoded with
        | Except.error m => { error := some ("error al decodificar respuesta JSON de Alpha Vantage: " ++ m) }
        | Except.ok payload =>
        match payload.errorMessage with
        | some m => { error := some ("Alpha Vantage API error: " ++ m) }
        | none =>
          match payload.note with
          | some m => { error := some ("Alpha Vantage API note/warning: " ++ m) }
          | none =>
            match payload.globalQuote with
            | none => { error := some "Alpha Vantage API - Global Quote no encontrado en la respuesta" }
            | some gq =>
                match gq.latestTradingDay with
                | some s =>
                    if s ≠ "" then
                      match parseDateYMD s with
                      | some t => { latestTradingDay := t }
                      | none => { error := some "error al parsear 07. latest trading day" }
                    else {}
                | none => {}

/-! ### Enrichment orchestrator (`cron/enricher.go`, `fetchAndEnrichStocks`) -/

/-- The execution environment of one cycle: the three API keys from the
process environment (`""` models an unset variable), the outcome of the
single Rating Source request, the per-ticker outcomes of the three
per-ticker requests, and the clock value used for `time.Now()`. -/
structure Env where
  karenaiKey : String
  finnhubKey : String
  alphaVantageKey : String
  karenaiResp : FetchOutcome KarenaiResponse
  finnhubMetricsResp : String → FetchOutcome FinnhubMetricResponse
  finnhubQuoteResp : String → FetchOutcome FinnhubQuoteResponse
  avResp : String → FetchOutcome AVPayload
  now : GoTime

/-- The Client A merge of the loop body: on a non-nil combined error,
`peRatio`/`dividendYield`/`marketCapitalization`/`latestTradingDay`
become explicitly absent and `currentPrice` is set to `0.0`; on success
the fetched values are taken, with a zero trading day mapped to absence. -/
def mergeMarket (fd : FinnhubData) (s : Stock) : Stock :=
  if fd.error ≠ [] then
    { s with
      peRatio := ⟨0, false⟩
      dividendYield := ⟨0, false⟩
      marketCapitalization := ⟨0, false⟩
      currentPrice := 0
      latestTradingDay := ⟨0, false⟩ }
  else
    { s with
      peRatio := ⟨fd.peRatio, true⟩
      dividendYield := ⟨fd.dividendYield, true⟩
      marketCapitalization := ⟨fd.marketCapitalization, true⟩
      currentPrice := fd.currentPrice
      latestTradingDay :=
        if !fd.latestTradingDay.isZero then ⟨fd.latestTradingDay, true⟩ else ⟨0, false⟩ }

/-- The Client B merge of the loop body: on error `alpha` becomes
explicitly absent; on success it takes the fetched alpha.  No other field
is touched. -/
def mergeAlpha (ad : AlphaVantageData) (s : Stock) : Stock :=
  if ad.error ≠ none then
    { s with alpha := ⟨0, false⟩ }
  else
    { s with alpha := ⟨ad.alpha, true⟩ }

/-- One iteration of the per-ticker loop, as a function of the responses
for this ticker only: Client A merge, then Client B merge, then the score
(always written as a present value) and `UpdatedAt := time.Now()`. -/
def enrichStep (finnhubKey alphaVantageKey : String)
    (metrics : FetchOutcome FinnhubMetricResponse)
    (quote : FetchOutcome FinnhubQuoteResponse)
    (av : FetchOutcome AVPayload) (now : GoTime) (s : Stock) : Stock :=
  let fd := GetFinnhubMetricsAndQuote finnhubKey metrics quote
  let s1 := mergeMarket fd s
  let ad := GetAlphaAndLatestTradingDayFromAlphaVantage alphaVantageKey av
  let s2 := mergeAlpha ad s1
  { s2 with
    recommendationScore := ⟨CalculateRecommendationScore s2, true⟩
    updatedAt := now }

/-- The loop body applied to one stock of the fetched list. -/
def enrichOne (env : Env) (s : Stock) : Stock :=
  enrichStep env.finnhubKey env.alphaVantageKey
    (env.finnhubMetricsResp s.ticker) (env.finnhubQuoteResp s.ticker)
    (env.avResp s.ticker) env.now s

/-- The observable effects of one cycle: which tickers were queried on
Client A and Client B (in order) and which batches were handed to the
storage port's `UpsertStocks`. -/
structure CycleTrace where
  finnhubCalls : List String
  alphaCalls : List String
  upsertCalls : List (List Stock)
deriving Repr

/-- Model of `fetchAndEnrichStocks`: a Rating Source error aborts the cycle before
any per-ticker call and before any persistence; otherwise every fetched
record is enriched in order and the whole batch is submitted to
`UpsertStocks` in one call. -/
def fetchAndEnrichStocks (env : Env) : CycleTrace :=
  match GetRecommendationsFromKarenai env.karenaiKey env.karenaiResp with
  | Except.error _ => { finnhubCalls := [], alphaCalls := [], upsertCalls := [] }
  | Except.ok stocksFromKarenai =>
      let enriched := stocksFromKarenai.map (enrichOne env)
      { finnhubCalls := stocksFromKarenai.map Stock.ticker
        alphaCalls := stocksFromKarenai.map Stock.ticker
        upsertCalls := [enriched] }

/-! ### Storage port (`database/db.go`, `UpsertStocks`)

The database is modelled as the list of stored rows (`ticker` unique);
statement-level failures are modelled by an oracle `execFails` saying
which record's `stmt.ExecContext` errors, and `beginFails`/
`prepareFails`/`commitFails` model failures of `BeginTx`/`Prepare`/
`Commit`.  `genId` supplies the `gen_random_uuid()` default used on a
fresh insert and `now` the SQL `now()`. -/

/-- Effect of one upsert statement on the (transaction-local) table:
on a ticker conflict every enriched column is overwritten and
`updated_at` refreshed, while `id` and `created_at` are preserved; else a
new row is inserted with a fresh id and both timestamps set to `now`. -/
def applyUpsert (genId : String → String) (now : GoTime)
    (db : List Stock) (s : Stock) : List Stock :=
  if db.any (fun r => r.ticker == s.ticker) then
    db.map (fun r =>
      if r.ticker == s.ticker then
        { s with id := r.id, createdAt := r.createdAt, updatedAt := now }
      else r)
  else
    db ++ [{ s with id := genId s.ticker, createdAt := now, updatedAt := now }]

/-- The statement loop of `UpsertStocks` over the transaction-local
table: the first failing statement aborts with an error. -/
def upsertLoop (execFails : Stock → Bool) (genId : String → String)
    (now : GoTime) (txDb : List Stock) : List Stock → Except String (List Stock)
  | [] => Except.ok txDb
  | s :: rest =>
      if execFails s then
        Except.error ("error al ejecutar upsert para el ticker " ++ s.ticker)
      else
        upsertLoop execFails genId now (applyUpsert genId now txDb s) rest

/-- Model of `UpsertStocks`: returns Go's error value together with the table
state after the call.  An empty batch returns immediately; otherwise all
statements run inside one transaction whose deferred `Rollback` leaves
the table unchanged on any failure, and only a successful `Commit` makes
the new table visible. -/
def UpsertStocks (execFails : Stock → Bool)
    (beginFails prepareFails commitFails : Bool) (genId : String → String)
    (now : GoTime) (db : List Stock) (stocks : List Stock) :
    Except String Unit × List Stock :=
  if stocks.isEmpty then (Except.ok (), db)
  else if beginFails then (Except.error "error al iniciar la transacción para upsert", db)
  else if prepareFails then (Except.error "error al preparar la declaración upsert", db)
  else
    match upsertLoop execFails genId now db stocks with
    | Except.error e => (Except.error e, db)
    | Except.ok txDb =>
        if commitFails then (Except.error "error al confirmar la transacción upsert", db)
        else (Except.ok (), txDb)

/-! ## Theorems -/

/-- A stock record with the given action, current price and new target;
all other fields at their neutral values (used for score examples). -/
def exampleStock (action : String) (price : ℚ) (tt : NullFloat64) : Stock :=
  { id := "", ticker := "", company := "", brokerage := "", action := action
    ratingFrom := "", ratingTo := "", targetFrom := ⟨0, false⟩, targetTo := tt
    currentPrice := price, peRatio := ⟨0, false⟩, dividendYield := ⟨0, false⟩
    marketCapitalization := ⟨0, false⟩, alpha := ⟨0, false⟩
    latestTradingDay := ⟨0, false⟩, recommendationScore := ⟨0, false⟩
    createdAt := 0, updatedAt := 0 }

/-- C1: the recommendation score is the sum of exactly two contributions —
5.0 iff the action is exactly `"Buy"` or `"Strong Buy"` (case-sensitive),
plus 3.0 iff `currentPrice > 0`, `targetTo` is present and
`targetTo > currentPrice * 1.1` — and it takes the claimed values on the
claimed example records. -/
theorem calculateRecommendationScore_contract :
    (∀ s : Stock, CalculateRecommendationScore s =
        (if s.action = "Buy" ∨ s.action = "Strong Buy" then (5 : ℚ) else 0)
      + (if 0 < s.currentPrice ∧ s.targetTo.valid = true ∧
            s.currentPrice * (11/10) < s.targetTo.float64 then (3 : ℚ) else 0))
    ∧ CalculateRecommendationScore (exampleStock "Buy" 100 ⟨120, true⟩) = 8
    ∧ CalculateRecommendationScore (exampleStock "Strong Buy" 50 ⟨60, true⟩) = 8
    ∧ CalculateRecommendationScore (exampleStock "Hold" 100 ⟨120, true⟩) = 3
    ∧ CalculateRecommendationScore (exampleStock "Buy" 100 ⟨105, true⟩) = 5
    ∧ CalculateRecommendationScore (exampleStock "Buy" 100 ⟨0, false⟩) = 5
    ∧ CalculateRecommendationScore (exampleStock "Buy" 0 ⟨10, true⟩) = 5
    ∧ CalculateRecommendationScore (exampleStock "Sell" 100 ⟨120, true⟩) = 3 := by
  refine ⟨?_, ?_, ?_, ?_, ?_, ?_, ?_, ?_⟩
  case _ =>
    intro s
    unfold CalculateRecommendationScore
    split_ifs <;> ring
  all_goals simp [CalculateRecommendationScore, exampleStock] <;> norm_num

/-- Helper: the Client B merge touches only the `alpha` field. -/
theorem mergeAlpha_eta (ad : AlphaVantageData) (s : Stock) :
    mergeAlpha ad s = { s with alpha := (mergeAlpha ad s).alpha } := by
  unfold mergeAlpha
  split <;> rfl

/-- Helper: the score does not read the `alpha` field, so it is invariant
under the Client B merge. -/
theorem score_mergeAlpha (ad : AlphaVantageData) (s : Stock) :
    CalculateRecommendationScore (mergeAlpha ad s) = CalculateRecommendationScore s := by
  rw [mergeAlpha_eta]
  unfold CalculateRecommendationScore
  rfl

/-- Helper: the Client B merge leaves `peRatio` unchanged. -/
theorem mergeAlpha_peRatio (ad : AlphaVantageData) (s : Stock) :
    (mergeAlpha ad s).peRatio = s.peRatio := by
  unfold mergeAlpha; split <;> rfl

/-- Helper: the Client B merge leaves `dividendYield` unchanged. -/
theorem mergeAlpha_dividendYield (ad : AlphaVantageData) (s : Stock) :
    (mergeAlpha ad s).dividendYield = s.dividendYield := by
  unfold mergeAlpha; split <;> rfl

/-- Helper: the Client B merge leaves `marketCapitalization` unchanged. -/
theorem mergeAlpha_marketCapitalization (ad : AlphaVantageData) (s : Stock) :
    (mergeAlpha ad s).marketCapitalization = s.marketCapitalization := by
  unfold mergeAlpha; split <;> rfl

/-- Helper: the Client B merge leaves `latestTradingDay` unchanged. -/
theorem mergeAlpha_latestTradingDay (ad : AlphaVantageData) (s : Stock) :
    (mergeAlpha ad s).latestTradingDay = s.latestTradingDay := by
  unfold mergeAlpha; split <;> rfl

/-- Helper: the Client B merge leaves `currentPrice` unchanged. -/
theorem mergeAlpha_currentPrice (ad : AlphaVantageData) (s : Stock) :
    (mergeAlpha ad s).currentPrice = s.currentPrice := by
  unfold mergeAlpha; split <;> rfl

/-- Helper: the market-failure branch of the loop body — the conclusion
of claim C2, shared with the proofs about partial Client A failures. -/
theorem enrichOne_marketFail (env : Env) (s : Stock)
    (h : (GetFinnhubMetricsAndQuote env.finnhubKey (env.finnhubMetricsResp s.ticker)
            (env.finnhubQuoteResp s.ticker)).error ≠ []) :
    (enrichOne env s).peRatio = ⟨0, false⟩ ∧
    (enrichOne env s).dividendYield = ⟨0, false⟩ ∧
    (enrichOne env s).marketCapitalization = ⟨0, false⟩ ∧
    (enrichOne env s).latestTradingDay = ⟨0, false⟩ ∧
    (enrichOne env s).currentPrice = 0 := by
  simp [enrichOne, enrichStep, mergeAlpha_peRatio, mergeAlpha_dividendYield,
    mergeAlpha_marketCapitalization, mergeAlpha_latestTradingDay,
    mergeAlpha_currentPrice, mergeMarket, h]

/-- A Rating-Source record with a concrete ticker, used by the concrete
environments below. -/
def fixtureStock (tk : String) : Stock :=
  { exampleStock "Buy" 100 ⟨120, true⟩ with ticker := tk }

/-- An environment whose Finnhub endpoints are both unreachable while
the Rating Source and Alpha Vantage succeed. -/
def envFinnhubDown : Env :=
  { karenaiKey := "k", finnhubKey := "f", alphaVantageKey := "a"
    karenaiResp := FetchOutcome.ok ⟨[fixtureStock "AAPL"], "next"⟩
    finnhubMetricsResp := fun _ => FetchOutcome.httpErr "down"
    finnhubQuoteResp := fun _ => FetchOutcome.httpErr "down"
    avResp := fun _ => FetchOutcome.ok ⟨none, none, some ⟨none⟩⟩
    now := 100 }

/-- C2: when Client A's combined fetch fails for a ticker, the merged
record has `peRatio`, `dividendYield`, `marketCapitalization` and
`latestTradingDay` explicitly absent (`Valid = false`) and `currentPrice`
equal to `0` — absence for every tri-state field, a concrete zero only
for the price. -/
theorem marketFetchFailure_nulls_fields (env : Env) (s : Stock)
    (h : (GetFinnhubMetricsAndQuote env.finnhubKey (env.finnhubMetricsResp s.ticker)
            (env.finnhubQuoteResp s.ticker)).error ≠ []) :
    (enrichOne env s).peRatio = ⟨0, false⟩ ∧
    (enrichOne env s).dividendYield = ⟨0, false⟩ ∧
    (enrichOne env s).marketCapitalization = ⟨0, false⟩ ∧
    (enrichOne env s).latestTradingDay = ⟨0, false⟩ ∧
    (enrichOne env s).currentPrice = 0 :=
  enrichOne_marketFail env s h

/-- C2 witness: a concrete environment whose Finnhub transport is down. -/
theorem marketFetchFailure_nulls_fields_witness :
    ((GetFinnhubMetricsAndQuote envFinnhubDown.finnhubKey
        (envFinnhubDown.finnhubMetricsResp (fixtureStock "AAPL").ticker)
        (envFinnhubDown.finnhubQuoteResp (fixtureStock "AAPL").ticker)).error ≠ []) ∧
    (enrichOne envFinnhubDown (fixtureStock "AAPL")).currentPrice = 0 ∧
    (enrichOne envFinnhubDown (fixtureStock "AAPL")).peRatio = ⟨0, false⟩ :=
  ⟨by decide,
   (marketFetchFailure_nulls_fields envFinnhubDown (fixtureStock "AAPL") (by decide)).2.2.2.2,
   (marketFetchFailure_nulls_fields envFinnhubDown (fixtureStock "AAPL") (by decide)).1⟩

/-- A successful Finnhub metrics payload with concrete values. -/
def fixtureMetrics : FinnhubMetricResponse :=
  { peExclExtraTTM := 7, peRatio := 9, dividendYield := 2, dividendYieldAlt := 3, marketCap := 500 }

/-- An environment where the Finnhub metrics endpoint succeeds but the
quote endpoint returns a non-2xx status. -/
def envQuoteDown : Env :=
  { karenaiKey := "k", finnhubKey := "f", alphaVantageKey := "a"
    karenaiResp := FetchOutcome.ok ⟨[fixtureStock "AAPL"], "next"⟩
    finnhubMetricsResp := fun _ => FetchOutcome.ok fixtureMetrics
    finnhubQuoteResp := fun _ => FetchOutcome.completed 429 "429 Too Many Requests" "limit" (Except.error "no decodificado")
    avResp := fun _ => FetchOutcome.ok ⟨none, none, some ⟨none⟩⟩
    now := 100 }

/-- Helper: a failed quote sub-fetch appends one message to the combined
error, whatever the metrics sub-fetch produced. -/
theorem finnhubQuoteStep_fail (fd : FinnhubData)
    (q : FetchOutcome FinnhubQuoteResponse) (hq : q.isOk = false) :
    ∃ m, (finnhubQuoteStep fd q).error = m :: fd.error := by
  cases q with
  | httpErr m => exact ⟨_, rfl⟩
  | readErr m => exact ⟨_, rfl⟩
  | completed code st body decoded =>
      by_cases hc : code = 200
      · subst hc
        cases decoded with
        | error m =>
            exact ⟨"error al decodificar JSON de cotización de Finnhub: " ++ m,
              by simp [finnhubQuoteStep]⟩
        | ok qd => simp [FetchOutcome.isOk] at hq
      · exact ⟨"Finnhub cotización API devolvió estado de error: " ++ st ++ " - Cuerpo: " ++ body,
          by simp [finnhubQuoteStep, hc]⟩

/-- Helper: the quote sub-fetch never touches the metrics-derived fields
of the consolidated Finnhub result. -/
theorem finnhubQuoteStep_metrics_fields (fd : FinnhubData)
    (q : FetchOutcome FinnhubQuoteResponse) :
    (finnhubQuoteStep fd q).peRatio = fd.peRatio ∧
    (finnhubQuoteStep fd q).dividendYield = fd.dividendYield ∧
    (finnhubQuoteStep fd q).marketCapitalization = fd.marketCapitalization := by
  unfold finnhubQuoteStep
  repeat' split
  all_goals exact ⟨rfl, rfl, rfl⟩

/-- C3 counterexample: with a successful metrics sub-fetch (P/E 7) and a
failed quote sub-fetch, the client's result still carries the fetched
metrics, but the merged record's `peRatio`, `dividendYield` and
`marketCapitalization` are explicitly absent — the quote failure does
blank out the successfully obtained metrics in the merged record. -/
theorem quoteFailure_keeps_metrics_cex :
    (GetFinnhubMetricsAndQuote envQuoteDown.finnhubKey
        (envQuoteDown.finnhubMetricsResp "AAPL") (envQuoteDown.finnhubQuoteResp "AAPL")).peRatio = 7 ∧
    (GetFinnhubMetricsAndQuote envQuoteDown.finnhubKey
        (envQuoteDown.finnhubMetricsResp "AAPL") (envQuoteDown.finnhubQuoteResp "AAPL")).error ≠ [] ∧
    (enrichOne envQuoteDown (fixtureStock "AAPL")).peRatio.valid = false ∧
    (enrichOne envQuoteDown (fixtureStock "AAPL")).dividendYield.valid = false ∧
    (enrichOne envQuoteDown (fixtureStock "AAPL")).marketCapitalization.valid = false := by
  decide

/-- C3 as amended: when the metrics sub-fetch succeeds and the quote
sub-fetch fails, the *client's* returned `FinnhubData` keeps the fetched
metrics values alongside a non-empty combined error, but the *merge step*
treats the non-nil combined error as total failure: the merged record's
`peRatio`, `dividendYield` and `marketCapitalization` are explicitly
absent and `currentPrice` is `0`. -/
theorem quoteFailure_partial_data_discarded (env : Env) (s : Stock)
    (mr : FinnhubMetricResponse)
    (hkey : env.finnhubKey ≠ "")
    (hm : env.finnhubMetricsResp s.ticker = FetchOutcome.ok mr)
    (hq : (env.finnhubQuoteResp s.ticker).isOk = false) :
    (GetFinnhubMetricsAndQuote env.finnhubKey (env.finnhubMetricsResp s.ticker)
        (env.finnhubQuoteResp s.ticker)).peRatio
      = (if mr.peExclExtraTTM ≠ 0 then mr.peExclExtraTTM else mr.peRatio) ∧
    (GetFinnhubMetricsAndQuote env.finnhubKey (env.finnhubMetricsResp s.ticker)
        (env.finnhubQuoteResp s.ticker)).dividendYield
      = (if mr.dividendYield ≠ 0 then mr.dividendYield else mr.dividendYieldAlt) ∧
    (GetFinnhubMetricsAndQuote env.finnhubKey (env.finnhubMetricsResp s.ticker)
        (env.finnhubQuoteResp s.ticker)).marketCapitalization = mr.marketCap ∧
    (GetFinnhubMetricsAndQuote env.finnhubKey (env.finnhubMetricsResp s.ticker)
        (env.finnhubQuoteResp s.ticker)).error ≠ [] ∧
    (enrichOne env s).peRatio = ⟨0, false⟩ ∧
    (enrichOne env s).dividendYield = ⟨0, false⟩ ∧
    (enrichOne env s).marketCapitalization = ⟨0, false⟩ ∧
    (enrichOne env s).currentPrice = 0 := by
  have hfd : GetFinnhubMetricsAndQuote env.finnhubKey (env.finnhubMetricsResp s.ticker)
      (env.finnhubQuoteResp s.ticker)
      = finnhubQuoteStep (finnhubMetricsStep {} (FetchOutcome.ok mr))
          (env.finnhubQuoteResp s.ticker) := by
    rw [hm]
    unfold GetFinnhubMetricsAndQuote
    rw [if_neg hkey]
  obtain ⟨m, hcons⟩ := finnhubQuoteStep_fail _ _ hq
  have herr : (GetFinnhubMetricsAndQuote env.finnhubKey (env.finnhubMetricsResp s.ticker)
      (env.finnhubQuoteResp s.ticker)).error ≠ [] := by
    rw [hfd, hcons]
    simp
  have hfields := enrichOne_marketFail env s herr
  obtain ⟨hpe, hdy, hmc⟩ := finnhubQuoteStep_metrics_fields
    (finnhubMetricsStep {} (FetchOutcome.ok mr)) (env.finnhubQuoteResp s.ticker)
  exact ⟨by rw [hfd, hpe]; simp [finnhubMetricsStep, FetchOutcome.ok],
    by rw [hfd, hdy]; simp [finnhubMetricsStep, FetchOutcome.ok],
    by rw [hfd, hmc]; simp [finnhubMetricsStep, FetchOutcome.ok],
    herr, hfields.1, hfields.2.1, hfields.2.2.1, hfields.2.2.2.2⟩

/-- C3 witness for the amended claim: the metrics-ok/quote-down
environment with a fresh key. -/
theorem quoteFailure_partial_data_discarded_witness :
    (envQuoteDown.finnhubKey ≠ "" ∧
     envQuoteDown.finnhubMetricsResp (fixtureStock "AAPL").ticker = FetchOutcome.ok fixtureMetrics ∧
     (envQuoteDown.finnhubQuoteResp (fixtureStock "AAPL").ticker).isOk = false) ∧
    (GetFinnhubMetricsAndQuote envQuoteDown.finnhubKey
        (envQuoteDown.finnhubMetricsResp (fixtureStock "AAPL").ticker)
        (envQuoteDown.finnhubQuoteResp (fixtureStock "AAPL").ticker)).marketCapitalization = 500 ∧
    (enrichOne envQuoteDown (fixtureStock "AAPL")).marketCapitalization = ⟨0, false⟩ :=
  ⟨⟨by decide, rfl, rfl⟩,
   (quoteFailure_partial_data_discarded envQuoteDown (fixtureStock "AAPL") fixtureMetrics
      (by decide) rfl rfl).2.2.1,
   (quoteFailure_partial_data_discarded envQuoteDown (fixtureStock "AAPL") fixtureMetrics
      (by decide) rfl rfl).2.2.2.2.2.2.1⟩

/-- C8: the Client B merge step changes only the `alpha` field of the
record: the merged `latestTradingDay` is exactly the one produced by the
Client A merge — Client B's fetched trading day is never used, even as a
fallback — and the recommendation score does not change under the Client
B merge either. -/
theorem clientB_merge_frame :
    (∀ (ad : AlphaVantageData) (s : Stock),
        mergeAlpha ad s = { s with alpha := (mergeAlpha ad s).alpha }) ∧
    (∀ (env : Env) (s : Stock),
        (enrichOne env s).latestTradingDay =
          (mergeMarket (GetFinnhubMetricsAndQuote env.finnhubKey
              (env.finnhubMetricsResp s.ticker) (env.finnhubQuoteResp s.ticker)) s).latestTradingDay) ∧
    (∀ (ad : AlphaVantageData) (s : Stock),
        CalculateRecommendationScore (mergeAlpha ad s) = CalculateRecommendationScore s) := by
  refine ⟨mergeAlpha_eta, ?_, score_mergeAlpha⟩
  intro env s
  simp [enrichOne, enrichStep, mergeAlpha_latestTradingDay]

/-- C4: when the Rating Source fetch fails, the cycle performs zero
Client A calls, zero Client B calls and zero `UpsertStocks` calls. -/
theorem ratingSourceFailure_aborts_cycle (env : Env)
    (h : ∃ msg, GetRecommendationsFromKarenai env.karenaiKey env.karenaiResp = Except.error msg) :
    fetchAndEnrichStocks env = { finnhubCalls := [], alphaCalls := [], upsertCalls := [] } := by
  obtain ⟨msg, hm⟩ := h
  unfold fetchAndEnrichStocks
  rw [hm]

/-- C4 witness: an environment with the Rating Source credential unset. -/
theorem ratingSourceFailure_aborts_cycle_witness :
    GetRecommendationsFromKarenai (Env.mk "" "f" "a" (FetchOutcome.ok ⟨[fixtureStock "AAPL"], "n"⟩)
        (fun _ => FetchOutcome.httpErr "x") (fun _ => FetchOutcome.httpErr "x")
        (fun _ => FetchOutcome.httpErr "x") 5).karenaiKey
      (Env.mk "" "f" "a" (FetchOutcome.ok ⟨[fixtureStock "AAPL"], "n"⟩)
        (fun _ => FetchOutcome.httpErr "x") (fun _ => FetchOutcome.httpErr "x")
        (fun _ => FetchOutcome.httpErr "x") 5).karenaiResp
      = Except.error "KARENAI_API_KEY no configurada" ∧
    fetchAndEnrichStocks (Env.mk "" "f" "a" (FetchOutcome.ok ⟨[fixtureStock "AAPL"], "n"⟩)
        (fun _ => FetchOutcome.httpErr "x") (fun _ => FetchOutcome.httpErr "x")
        (fun _ => FetchOutcome.httpErr "x") 5)
      = { finnhubCalls := [], alphaCalls := [], upsertCalls := [] } :=
  ⟨rfl, ratingSourceFailure_aborts_cycle _ ⟨"KARENAI_API_KEY no configurada", rfl⟩⟩

/-- Helper: a failed Client B fetch makes exactly that record's alpha
explicitly absent. -/
theorem enrichOne_alpha_fail (env : Env) (s : Stock)
    (hx : (GetAlphaAndLatestTradingDayFromAlphaVantage env.alphaVantageKey
            (env.avResp s.ticker)).error ≠ none) :
    (enrichOne env s).alpha = ⟨0, false⟩ := by
  simp [enrichOne, enrichStep, mergeAlpha, hx]

/-- Helper: a successful Client B fetch stores the fetched alpha as a
present value. -/
theorem enrichOne_alpha_ok (env : Env) (s : Stock)
    (hy : (GetAlphaAndLatestTradingDayFromAlphaVantage env.alphaVantageKey
            (env.avResp s.ticker)).error = none) :
    (enrichOne env s).alpha =
      ⟨(GetAlphaAndLatestTradingDayFromAlphaVantage env.alphaVantageKey
          (env.avResp s.ticker)).alpha, true⟩ := by
  simp [enrichOne, enrichStep, mergeAlpha, hy]

/-- C5: a Client B failure for ticker X makes only X's alpha absent;
Y's record is computed from Y's own responses alone (so it is unaffected
and its alpha is present), the loop reaches every record, and the whole
enriched batch — X and Y included — is handed to persistence in one
single `UpsertStocks` call. -/
theorem alphaFailure_per_ticker_isolation (env : Env) (stocks : List Stock)
    (i j : ℕ) (hi : i < stocks.length) (hj : j < stocks.length)
    (hk : GetRecommendationsFromKarenai env.karenaiKey env.karenaiResp = Except.ok stocks)
    (hx : (GetAlphaAndLatestTradingDayFromAlphaVantage env.alphaVantageKey
            (env.avResp (stocks.get ⟨i, hi⟩).ticker)).error ≠ none)
    (hy : (GetAlphaAndLatestTradingDayFromAlphaVantage env.alphaVantageKey
            (env.avResp (stocks.get ⟨j, hj⟩).ticker)).error = none) :
    (enrichOne env (stocks.get ⟨i, hi⟩)).alpha = ⟨0, false⟩ ∧
    (enrichOne env (stocks.get ⟨j, hj⟩)).alpha =
      ⟨(GetAlphaAndLatestTradingDayFromAlphaVantage env.alphaVantageKey
          (env.avResp (stocks.get ⟨j, hj⟩).ticker)).alpha, true⟩ ∧
    (enrichOne env (stocks.get ⟨j, hj⟩)) =
      enrichStep env.finnhubKey env.alphaVantageKey
        (env.finnhubMetricsResp (stocks.get ⟨j, hj⟩).ticker)
        (env.finnhubQuoteResp (stocks.get ⟨j, hj⟩).ticker)
        (env.avResp (stocks.get ⟨j, hj⟩).ticker) env.now (stocks.get ⟨j, hj⟩) ∧
    (fetchAndEnrichStocks env).upsertCalls = [stocks.map (enrichOne env)] ∧
    enrichOne env (stocks.get ⟨i, hi⟩) ∈ stocks.map (enrichOne env) ∧
    enrichOne env (stocks.get ⟨j, hj⟩) ∈ stocks.map (enrichOne env) ∧
    (stocks.map (enrichOne env)).length = stocks.length := by
  refine ⟨enrichOne_alpha_fail env _ hx, enrichOne_alpha_ok env _ hy, rfl, ?_, ?_, ?_, ?_⟩
  · unfold fetchAndEnrichStocks
    rw [hk]
  · exact List.mem_map_of_mem _ (stocks.get_mem _ _)
  · exact List.mem_map_of_mem _ (stocks.get_mem _ _)
  · exact stocks.length_map _

/-- Two tickers where Alpha Vantage fails for `"AAPL"` only. -/
def envAlphaMixed : Env :=
  { karenaiKey := "k", finnhubKey := "f", alphaVantageKey := "a"
    karenaiResp := FetchOutcome.ok ⟨[fixtureStock "AAPL", fixtureStock "MSFT"], "n"⟩
    finnhubMetricsResp := fun _ => FetchOutcome.ok fixtureMetrics
    finnhubQuoteResp := fun _ => FetchOutcome.ok ⟨123, 555⟩
    avResp := fun tk =>
      if tk = "AAPL" then FetchOutcome.completed 500 "500 Internal Server Error" "boom" (Except.error "no decodificado")
      else FetchOutcome.ok ⟨none, none, some ⟨none⟩⟩
    now := 100 }

/-- C5 witness: with Alpha Vantage failing for `"AAPL"` but not `"MSFT"`,
AAPL's alpha is absent, MSFT's alpha is present, and one single batch
with both records is submitted. -/
theorem alphaFailure_per_ticker_isolation_witness :
    (enrichOne envAlphaMixed (fixtureStock "AAPL")).alpha = ⟨0, false⟩ ∧
    (enrichOne envAlphaMixed (fixtureStock "MSFT")).alpha =
      ⟨(GetAlphaAndLatestTradingDayFromAlphaVantage envAlphaMixed.alphaVantageKey
          (envAlphaMixed.avResp (fixtureStock "MSFT").ticker)).alpha, true⟩ ∧
    (fetchAndEnrichStocks envAlphaMixed).upsertCalls =
      [[fixtureStock "AAPL", fixtureStock "MSFT"].map (enrichOne envAlphaMixed)] := by
  have h := alphaFailure_per_ticker_isolation envAlphaMixed
    [fixtureStock "AAPL", fixtureStock "MSFT"] 0 1 (by decide) (by decide)
    (by rfl) (by decide) (by decide)
  exact ⟨h.1, h.2.1, h.2.2.2.1⟩

/-- C6 counterexample: a 201-status response — a 2xx status, with a set
credential and a decodable payload — is still rejected by the client,
because the code accepts exactly status 200 (`http.StatusOK`), not every
2xx status. -/
theorem karenai_status_2xx_cex :
    (200 ≤ 201 ∧ 201 < 300) ∧ ("k" : String) ≠ "" ∧
    GetRecommendationsFromKarenai "k"
        (FetchOutcome.completed 201 "201 Created" "cuerpo"
          (Except.ok ⟨[fixtureStock "AAPL"], "p"⟩)) =
      Except.error
        "Karenai.click API devolvió un estado de error: 201 Created - Cuerpo de respuesta: cuerpo" :=
  ⟨by decide, by decide, rfl⟩

/-- C6 as amended: the Rating Source client fails exactly when the
credential is unset or the single request fails (transport, read, status
other than exactly 200, or decode); on success it returns exactly the
items of the single first-page response — the next-page token is never
followed. -/
theorem karenai_error_iff_first_page :
    (∀ (key : String) (resp : FetchOutcome KarenaiResponse),
        (∃ items, GetRecommendationsFromKarenai key resp = Except.ok items) ↔
          (key ≠ "" ∧ resp.isOk = true)) ∧
    (∀ (key : String) (r : KarenaiResponse), key ≠ "" →
        GetRecommendationsFromKarenai key (FetchOutcome.ok r) = Except.ok r.items) := by
  constructor
  · intro key resp
    by_cases hk : key = ""
    · simp [GetRecommendationsFromKarenai, hk]
    · cases resp with
      | httpErr m => simp [GetRecommendationsFromKarenai, hk, FetchOutcome.isOk]
      | readErr m => simp [GetRecommendationsFromKarenai, hk, FetchOutcome.isOk]
      | completed code st body decoded =>
          by_cases hc : code = 200
          · subst hc
            cases decoded <;>
              simp [GetRecommendationsFromKarenai, hk, FetchOutcome.isOk]
          · cases decoded <;>
              simp [GetRecommendationsFromKarenai, hk, hc, FetchOutcome.isOk]
  · intro key r hk
    simp [GetRecommendationsFromKarenai, hk, FetchOutcome.ok]

/-- C6 witness: a set credential and a successful first page carrying a
next-page token that the result ignores. -/
theorem karenai_error_iff_first_page_witness :
    GetRecommendationsFromKarenai "k"
        (FetchOutcome.ok ⟨[fixtureStock "AAPL"], "page2"⟩) =
      Except.ok [fixtureStock "AAPL"] :=
  karenai_error_iff_first_page.2 "k" ⟨[fixtureStock "AAPL"], "page2"⟩ (by decide)

/-- C7: `NullFloat64` serialisation round-trips absence — an absent value
marshals to the JSON `null` literal; unmarshaling `null`, the empty
string, or any case variant of `"n/a"` yields an absent value (never a
present zero); any other non-numeric string is a decode failure; and a
present value round-trips through marshal/unmarshal unchanged. -/
theorem nullFloat64_roundtrip :
    (∀ nf : NullFloat64, nf.valid = false → nf.marshalJSON = JValue.null) ∧
    (∀ nf : NullFloat64,
        nf.unmarshalJSON JValue.null = Except.ok ⟨nf.float64, false⟩) ∧
    (∀ (nf : NullFloat64) (s : String), s = "" ∨ s.toLower = "n/a" →
        nf.unmarshalJSON (JValue.str s) = Except.ok ⟨nf.float64, false⟩) ∧
    (∀ (nf : NullFloat64) (s : String), ¬(s = "" ∨ s.toLower = "n/a") →
        ∃ e, nf.unmarshalJSON (JValue.str s) = Except.error e) ∧
    (∀ (v : ℚ) (prior : NullFloat64),
        prior.unmarshalJSON (NullFloat64.marshalJSON ⟨v, true⟩) = Except.ok ⟨v, true⟩) := by
  refine ⟨?_, ?_, ?_, ?_, ?_⟩
  · intro nf h
    simp [NullFloat64.marshalJSON, h]
  · intro nf
    rfl
  · intro nf s h
    rcases h with h | h <;> simp [NullFloat64.unmarshalJSON, h]
  · intro nf s h
    push_neg at h
    refine ⟨"json: cannot unmarshal \x22" ++ s ++ "\x22 into Go value of type float64", ?_⟩
    simp [NullFloat64.unmarshalJSON, h.1, h.2]
  · intro v prior
    rfl

/-- C7 witness: a present `3` round-trips; `null` and the empty string
unmarshal to absent even over a previously present receiver. -/
theorem nullFloat64_roundtrip_witness :
    NullFloat64.unmarshalJSON ⟨7, true⟩ (NullFloat64.marshalJSON ⟨3, true⟩) =
      Except.ok ⟨3, true⟩ ∧
    NullFloat64.unmarshalJSON ⟨7, true⟩ JValue.null = Except.ok ⟨7, false⟩ ∧
    NullFloat64.unmarshalJSON ⟨7, true⟩ (JValue.str "") = Except.ok ⟨7, false⟩ :=
  ⟨nullFloat64_roundtrip.2.2.2.2 3 ⟨7, true⟩,
   nullFloat64_roundtrip.2.1 ⟨7, true⟩,
   nullFloat64_roundtrip.2.2.1 ⟨7, true⟩ "" (Or.inl rfl)⟩

/-- Helper: when no statement fails, the loop folds every upsert over the
transaction-local table. -/
theorem upsertLoop_ok (execFails : Stock → Bool) (genId : String → String)
    (now : GoTime) :
    ∀ (l : List Stock) (txDb : List Stock), (∀ s ∈ l, execFails s = false) →
      upsertLoop execFails genId now txDb l =
        Except.ok (l.foldl (applyUpsert genId now) txDb) := by
  intro l
  induction l with
  | nil => intro txDb _; rfl
  | cons s rest ih =>
      intro txDb h
      have hs : execFails s = false := h s (List.mem_cons_self s rest)
      simp [upsertLoop, hs, ih _ (fun x hx => h x (List.mem_cons_of_mem s hx))]

/-- Helper: if some statement of the batch fails, the loop returns an
error. -/
theorem upsertLoop_err (execFails : Stock → Bool) (genId : String → String)
    (now : GoTime) :
    ∀ (l : List Stock) (txDb : List Stock), (∃ s ∈ l, execFails s = true) →
      ∃ e, upsertLoop execFails genId now txDb l = Except.error e := by
  intro l
  induction l with
  | nil => intro txDb h; simp at h
  | cons s rest ih =>
      intro txDb h
      by_cases hs : execFails s = true
      · exact ⟨"error al ejecutar upsert para el ticker " ++ s.ticker, by simp [upsertLoop, hs]⟩
      · obtain ⟨x, hx, hfx⟩ := h
        rcases List.mem_cons.mp hx with rfl | hx
        · exact absurd hfx hs
        · obtain ⟨e, he⟩ := ih (applyUpsert genId now txDb s) ⟨x, hx, hfx⟩
          exact ⟨e, by simp [upsertLoop, hs, he]⟩

/-- C9: `UpsertStocks` is all-or-nothing — if any record's statement
fails the call returns an error and the stored table is unchanged
(rollback), whatever the commit would have done; if every statement,
the transaction begin, the prepare and the commit succeed, the whole
batch is applied in order. -/
theorem upsertStocks_transactional (execFails : Stock → Bool)
    (beginFails prepareFails commitFails : Bool) (genId : String → String)
    (now : GoTime) (db stocks : List Stock) :
    ((∃ s ∈ stocks, execFails s = true) →
        (UpsertStocks execFails beginFails prepareFails commitFails genId now db stocks).2 = db ∧
        ∃ e, (UpsertStocks execFails beginFails prepareFails commitFails genId now db stocks).1 =
          Except.error e) ∧
    ((∀ s ∈ stocks, execFails s = false) →
        UpsertStocks execFails false false false genId now db stocks =
          (Except.ok (), stocks.foldl (applyUpsert genId now) db)) := by
  constructor
  · intro h
    have hne : ¬stocks.isEmpty := by
      obtain ⟨s, hs, _⟩ := h
      cases stocks with
      | nil => simp at hs
      | cons a l => simp [List.isEmpty]
    obtain ⟨e, he⟩ := upsertLoop_err execFails genId now stocks db h
    cases beginFails <;> cases prepareFails <;>
      simp [UpsertStocks, hne, he]
  · intro h
    cases hne : stocks.isEmpty
    · simp [UpsertStocks, hne, upsertLoop_ok execFails genId now stocks db h]
    · have : stocks = [] := by
        cases stocks with
        | nil => rfl
        | cons a l => simp [List.isEmpty] at hne
      subst this
      rfl

/-- C9 witness: a batch whose second record's statement fails leaves the
table unchanged, and a fully successful batch is applied as a fold. -/
theorem upsertStocks_transactional_witness :
    ((UpsertStocks (fun s => s.ticker == "BAD") false false false
        (fun tk => tk ++ "-id") 9 [] [fixtureStock "GOOD", fixtureStock "BAD"]).2 = [] ∧
      ∃ e, (UpsertStocks (fun s => s.ticker == "BAD") false false false
        (fun tk => tk ++ "-id") 9 [] [fixtureStock "GOOD", fixtureStock "BAD"]).1 =
          Except.error e) ∧
    UpsertStocks (fun _ => false) false false false
        (fun tk => tk ++ "-id") 9 [] [fixtureStock "GOOD"] =
      (Except.ok (), [fixtureStock "GOOD"].foldl (applyUpsert (fun tk => tk ++ "-id") 9) []) :=
  ⟨(upsertStocks_transactional (fun s => s.ticker == "BAD") false false false
      (fun tk => tk ++ "-id") 9 [] [fixtureStock "GOOD", fixtureStock "BAD"]).1
      ⟨fixtureStock "BAD", by decide, by decide⟩,
   (upsertStocks_transactional (fun _ => false) false false false
      (fun tk => tk ++ "-id") 9 [] [fixtureStock "GOOD"]).2
      (fun _ _ => rfl)⟩

/-- Helper: the Alpha Vantage client never assigns its `Alpha` field on
any path — the consolidated result's alpha is always the zero value. -/
theorem avData_alpha_zero (key : String) (resp : FetchOutcome AVPayload) :
    (GetAlphaAndLatestTradingDayFromAlphaVantage key resp).alpha = 0 := by
  unfold GetAlphaAndLatestTradingDayFromAlphaVantage
  repeat' split
  all_goals rfl

/-- C10 (implicit): whenever the Client B fetch returns without error the
merged record's alpha is present with value exactly `0` — the client
parses only the latest-trading-day field and never assigns `Alpha`, so a
successful alpha fetch always stores a valid zero. -/
theorem alphaSuccess_stores_valid_zero :
    (∀ (key : String) (resp : FetchOutcome AVPayload),
        (GetAlphaAndLatestTradingDayFromAlphaVantage key resp).error = none →
        (GetAlphaAndLatestTradingDayFromAlphaVantage key resp).alpha = 0) ∧
    (∀ (env : Env) (s : Stock),
        (GetAlphaAndLatestTradingDayFromAlphaVantage env.alphaVantageKey
            (env.avResp s.ticker)).error = none →
        (enrichOne env s).alpha = ⟨0, true⟩) := by
  constructor
  · intro key resp _
    exact avData_alpha_zero key resp
  · intro env s h
    rw [enrichOne_alpha_ok env s h, avData_alpha_zero]

/-- C10 witness: a successful Alpha Vantage payload (no error fields, a
Global Quote without a trading day) yields a present zero alpha. -/
theorem alphaSuccess_stores_valid_zero_witness :
    (GetAlphaAndLatestTradingDayFromAlphaVantage envFinnhubDown.alphaVantageKey
        (envFinnhubDown.avResp (fixtureStock "AAPL").ticker)).error = none ∧
    (enrichOne envFinnhubDown (fixtureStock "AAPL")).alpha = ⟨0, true⟩ :=
  ⟨by decide,
   alphaSuccess_stores_valid_zero.2 envFinnhubDown (fixtureStock "AAPL") (by decide)⟩

end StockApp
